import Mathlib

/-!
Shallow embedding of the drone flight physics and collision engine of
src/components/Drone.tsx (the useFrame body, lines 99 to 347), over exact
rationals. Transcendental primitives (sine, cosine, square root) are
parameters of the embedding, packaged in the Prim structure: every general
theorem quantifies over them, and concrete evaluations instantiate them with
functions that agree with the true primitives at the arguments the concrete
run actually uses (attitude zero, whose sine is 0 and cosine is 1; runs that
take the near static crash branch never consult the square root). Two
comparisons involving a square root are translated to their exact squared
equivalents: the tree test sqrt(d2) < r becomes d2 < r*r, and the objective
test distance < 4 becomes squared distance < 16; both sides are nonnegative,
so the translations are exact. The NaN guard of lines 104 to 106 is modelled
separately over Option valued components, none standing for NaN.
-/

namespace DroneSim

/-- Three component vector over the rationals, standing for three.js Vector3.
Also used for Euler angles, with x the pitch, y the yaw and z the roll, in
the YXZ application order of the source. -/
@[ext]
structure Vec3 where
  x : ℚ
  y : ℚ
  z : ℚ
deriving DecidableEq

instance : Add Vec3 := ⟨fun a b => ⟨a.x + b.x, a.y + b.y, a.z + b.z⟩⟩

instance : Sub Vec3 := ⟨fun a b => ⟨a.x - b.x, a.y - b.y, a.z - b.z⟩⟩

instance : SMul ℚ Vec3 := ⟨fun c v => ⟨c * v.x, c * v.y, c * v.z⟩⟩

/-- Squared length, three.js Vector3.lengthSq. -/
def lengthSq (v : Vec3) : ℚ := v.x * v.x + v.y * v.y + v.z * v.z

/-- Squared distance between two points, three.js Vector3.distanceToSquared.
The source compares distanceTo against 4; we compare this against 16. -/
def distanceSq (a b : Vec3) : ℚ :=
  (a.x - b.x) * (a.x - b.x) + (a.y - b.y) * (a.y - b.y) + (a.z - b.z) * (a.z - b.z)

/-- Quaternion, three.js Quaternion, components x y z w. -/
structure Quat where
  x : ℚ
  y : ℚ
  z : ℚ
  w : ℚ
deriving DecidableEq

/-- Primitive transcendental functions of the runtime, left as parameters of
the embedding: sine, cosine (used on half angles when building a quaternion
from Euler angles) and square root (used by Vector3.normalize). -/
structure Prim where
  sin : ℚ → ℚ
  cos : ℚ → ℚ
  sqrt : ℚ → ℚ

/-- Quaternion from Euler angles in YXZ order, three.js
Quaternion.setFromEuler, case YXZ. -/
def quatFromEulerYXZ (P : Prim) (e : Vec3) : Quat :=
  let c1 := P.cos (e.x / 2)
  let c2 := P.cos (e.y / 2)
  let c3 := P.cos (e.z / 2)
  let s1 := P.sin (e.x / 2)
  let s2 := P.sin (e.y / 2)
  let s3 := P.sin (e.z / 2)
  ⟨s1 * c2 * c3 + c1 * s2 * s3,
   c1 * s2 * c3 - s1 * c2 * s3,
   c1 * c2 * s3 - s1 * s2 * c3,
   c1 * c2 * c3 + s1 * s2 * s3⟩

/-- Rotate a vector by a quaternion, three.js Vector3.applyQuaternion. -/
def applyQuat (q : Quat) (v : Vec3) : Vec3 :=
  let tx := 2 * (q.y * v.z - q.z * v.y)
  let ty := 2 * (q.z * v.x - q.x * v.z)
  let tz := 2 * (q.x * v.y - q.y * v.x)
  ⟨v.x + q.w * tx + q.y * tz - q.z * ty,
   v.y + q.w * ty + q.z * tx - q.x * tz,
   v.z + q.w * tz + q.x * ty - q.y * tx⟩

/-- Discrete key flags sampled for one step, the key codes read by the
useFrame body of src/components/Drone.tsx. -/
structure Keys where
  arrowLeft : Bool
  keyQ : Bool
  arrowRight : Bool
  keyE : Bool
  arrowUp : Bool
  space : Bool
  arrowDown : Bool
  shiftLeft : Bool
  shiftRight : Bool
  keyW : Bool
  keyS : Bool
  keyA : Bool
  keyD : Bool
deriving DecidableEq

/-- Obstacle kind, src/types.ts Obstacle.type. -/
inductive ObsKind where
  | building
  | tree
deriving DecidableEq

/-- Obstacle descriptor, src/types.ts Obstacle: position and size triples. -/
structure Obstacle where
  kind : ObsKind
  position : Vec3
  size : Vec3
deriving DecidableEq

/-- Mutable physics state of the drone held in refs by src/components/Drone.tsx
lines 39 to 43: position, velocity, rotation (Euler YXZ), throttle and the
crash latch. -/
@[ext]
structure DroneState where
  position : Vec3
  velocity : Vec3
  rotation : Vec3
  throttle : ℚ
  isCrashed : Bool
deriving DecidableEq

/-- Physics constants of src/components/Drone.tsx lines 14 to 24. -/
def GRAVITY : ℚ := 25

def THRUST_POWER : ℚ := 65

def DRAG : ℚ := 0.98

def ROTATION_SPEED : ℚ := 2.5

def TILT_SPEED : ℚ := 3.0

def MAX_TILT : ℚ := 0.6

def HOVER_THROTTLE : ℚ := 0.40

def DRONE_RADIUS : ℚ := 0.5

def PROP_COLLISION_RADIUS : ℚ := 0.15

def THROTTLE_RESPONSE_SPEED : ℚ := 2.0

/-- Relative positions of the four propellers, src/components/Drone.tsx
lines 27 to 32. -/
def PROP_OFFSETS : List Vec3 :=
  [⟨0.8, 0, 0.8⟩, ⟨-0.8, 0, 0.8⟩, ⟨0.8, 0, -0.8⟩, ⟨-0.8, 0, -0.8⟩]

/-- Linear interpolation, three.js MathUtils.lerp. -/
def lerp (x y t : ℚ) : ℚ := (1 - t) * x + t * y

/-- Any directional tilt input active, src/components/Drone.tsx line 161. -/
def movingInput (keys : Keys) : Bool :=
  keys.keyW || keys.keyS || keys.keyA || keys.keyD

/-- Yaw update from the rotate keys, src/components/Drone.tsx lines 141 and 142. -/
def yawUpd (keys : Keys) (y dt : ℚ) : ℚ :=
  if keys.arrowRight || keys.keyE then
    (if keys.arrowLeft || keys.keyQ then y + ROTATION_SPEED * dt else y) - ROTATION_SPEED * dt
  else
    (if keys.arrowLeft || keys.keyQ then y + ROTATION_SPEED * dt else y)

/-- Throttle ramp from the throttle keys, src/components/Drone.tsx
lines 145 to 149. -/
def throttleRamp (keys : Keys) (t dt : ℚ) : ℚ :=
  if keys.arrowUp || keys.space then
    min (t + dt * THROTTLE_RESPONSE_SPEED) 1
  else if keys.arrowDown || keys.shiftLeft || keys.shiftRight then
    max (t - dt * THROTTLE_RESPONSE_SPEED) 0
  else t

/-- Throttle update for a step: key ramp followed by the takeoff assist of
src/components/Drone.tsx lines 161 to 164; posY is the pre step altitude. -/
def throttleUpd (keys : Keys) (posY t dt : ℚ) : ℚ :=
  if movingInput keys && decide (posY < 1) &&
      decide (throttleRamp keys t dt < HOVER_THROTTLE) then
    lerp (throttleRamp keys t dt) (HOVER_THROTTLE + 0.05) (dt * 3)
  else throttleRamp keys t dt

/-- Target pitch from keys W and S, src/components/Drone.tsx lines 152 to 154;
the later assignment of the source wins when both are pressed. -/
def targetPitch (keys : Keys) : ℚ :=
  if keys.keyS then MAX_TILT else if keys.keyW then -MAX_TILT else 0

/-- Target roll from keys A and D, src/components/Drone.tsx lines 156 to 158;
the later assignment of the source wins when both are pressed. -/
def targetRoll (keys : Keys) : ℚ :=
  if keys.keyA then MAX_TILT else if keys.keyD then -MAX_TILT else 0

/-- Rotation after input shaping: yaw keys plus the pitch and roll smoothing of
src/components/Drone.tsx lines 166 and 167. This is the rotation the step
builds its quaternion from. -/
def rotUpd (keys : Keys) (r : Vec3) (dt : ℚ) : Vec3 :=
  ⟨lerp r.x (targetPitch keys) (dt * TILT_SPEED),
   yawUpd keys r.y dt,
   lerp r.z (targetRoll keys) (dt * TILT_SPEED)⟩

/-- Quaternion of the step, src/components/Drone.tsx line 171, built from the
rotation after input shaping and before the ground auto level. -/
def flyQuat (P : Prim) (s : DroneState) (keys : Keys) (dt : ℚ) : Quat :=
  quatFromEulerYXZ P (rotUpd keys s.rotation dt)

/-- Velocity after force integration and drag, src/components/Drone.tsx
lines 171 to 178: thrust along the body up axis, gravity, Euler integration,
then the per step drag multiply. -/
def flyVel (P : Prim) (s : DroneState) (keys : Keys) (dt : ℚ) : Vec3 :=
  DRAG • (s.velocity + dt •
    ((throttleUpd keys s.position.y s.throttle dt * THRUST_POWER) •
        applyQuat (flyQuat P s keys dt) ⟨0, 1, 0⟩ + (⟨0, -GRAVITY, 0⟩ : Vec3)))

/-- Candidate next position before ground handling, src/components/Drone.tsx
line 181. -/
def flyNext (P : Prim) (s : DroneState) (keys : Keys) (dt : ℚ) : Vec3 :=
  s.position + dt • flyVel P s keys dt

/-- Candidate position after the ground clamp, src/components/Drone.tsx
lines 187 and 188. -/
def flyCand (P : Prim) (s : DroneState) (keys : Keys) (dt : ℚ) : Vec3 :=
  if (flyNext P s keys dt).y < 0.5 then
    ⟨(flyNext P s keys dt).x, 0.5, (flyNext P s keys dt).z⟩
  else flyNext P s keys dt

/-- Velocity after the ground contact damping, src/components/Drone.tsx
lines 189 to 191: vertical velocity zeroed and horizontal velocity damped
when the candidate falls below the clearance threshold. -/
def flyVel2 (P : Prim) (s : DroneState) (keys : Keys) (dt : ℚ) : Vec3 :=
  if (flyNext P s keys dt).y < 0.5 then
    ⟨(flyVel P s keys dt).x * 0.8, 0, (flyVel P s keys dt).z * 0.8⟩
  else flyVel P s keys dt

/-- Rotation committed by a flying step: the ground auto level of
src/components/Drone.tsx lines 194 to 197 applied on top of the input
shaped rotation. -/
def flyRot2 (P : Prim) (s : DroneState) (keys : Keys) (dt : ℚ) : Vec3 :=
  if decide ((flyNext P s keys dt).y < 0.5) && !(movingInput keys) then
    ⟨lerp (rotUpd keys s.rotation dt).x 0 (dt * 5),
     (rotUpd keys s.rotation dt).y,
     lerp (rotUpd keys s.rotation dt).z 0 (dt * 5)⟩
  else rotUpd keys s.rotation dt

/-- Hard landing flag, src/components/Drone.tsx lines 199 to 203: the source
zeroes the vertical velocity at line 189 before testing it at line 200, so
the absolute value tested here is that of the already damped velocity. -/
def hardLanding (P : Prim) (s : DroneState) (keys : Keys) (dt : ℚ) : Bool :=
  decide ((flyNext P s keys dt).y < 0.5) && decide (10 < |(flyVel2 P s keys dt).y|)

/-- World positions of the four propeller tips, src/components/Drone.tsx
line 207: offsets rotated by the step quaternion and translated to the
clamped candidate. -/
def propPoints (P : Prim) (s : DroneState) (keys : Keys) (dt : ℚ) : List Vec3 :=
  PROP_OFFSETS.map (fun o => applyQuat (flyQuat P s keys dt) o + flyCand P s keys dt)

/-- Propeller ground strike test, src/components/Drone.tsx lines 210 to 217. -/
def propGroundHit (P : Prim) (s : DroneState) (keys : Keys) (dt : ℚ) : Bool :=
  (propPoints P s keys dt).any (fun p => decide (p.y < 0.1))

/-- The five collision points and their radii, src/components/Drone.tsx
lines 222 to 225: the drone center at DRONE_RADIUS and the four propeller
tips at PROP_COLLISION_RADIUS. -/
def checkPoints (P : Prim) (s : DroneState) (keys : Keys) (dt : ℚ) : List (Vec3 × ℚ) :=
  (flyCand P s keys dt, DRONE_RADIUS) ::
    (propPoints P s keys dt).map (fun p => (p, PROP_COLLISION_RADIUS))

/-- Collision test of one check point of a given radius against one obstacle,
src/components/Drone.tsx lines 230 to 254: an axis aligned box inflated by
the point radius for a building, a horizontal radial test inflated by the
point radius plus a height bound for a tree. For the tree the source compares
Math.sqrt of the squared horizontal distance against the inflated radius;
with both sides nonnegative this equals the squared comparison used here. -/
def pointHit (point : Vec3) (radius : ℚ) (obs : Obstacle) : Bool :=
  match obs.kind with
  | ObsKind.building =>
    decide (|point.x - obs.position.x| < obs.size.x / 2 + radius) &&
    decide (|point.y - obs.position.y| < obs.size.y / 2 + radius) &&
    decide (|point.z - obs.position.z| < obs.size.z / 2 + radius)
  | ObsKind.tree =>
    decide ((point.x - obs.position.x) * (point.x - obs.position.x) +
            (point.z - obs.position.z) * (point.z - obs.position.z)
            < (1.5 + radius) * (1.5 + radius)) &&
    decide (point.y < obs.size.y)

/-- Obstacle scan, src/components/Drone.tsx lines 227 to 257: every obstacle
against every check point; the source breaks at the first hit, which equals
this any of any. -/
def obstacleHit (P : Prim) (obstacles : List Obstacle) (s : DroneState)
    (keys : Keys) (dt : ℚ) : Bool :=
  obstacles.any (fun obs =>
    (checkPoints P s keys dt).any (fun cp => pointHit cp.1 cp.2 obs))

/-- Velocity while crashed after the gravity integration, src/components/Drone.tsx
line 111. -/
def crashedVel (s : DroneState) (dt : ℚ) : Vec3 :=
  ⟨s.velocity.x, s.velocity.y - GRAVITY * dt, s.velocity.z⟩

/-- Position while crashed after integrating the fall velocity,
src/components/Drone.tsx line 112. -/
def crashedPos (s : DroneState) (dt : ℚ) : Vec3 :=
  s.position + dt • crashedVel s dt

/-- Reduced fall simulation while crashed, src/components/Drone.tsx
lines 109 to 135: gravity only, position integration and a floor clamp at
0.2 that zeroes the velocity; no collision checks and no objective signal. -/
def crashedStep (s : DroneState) (dt : ℚ) : DroneState × Bool :=
  if (crashedPos s dt).y < 0.2 then
    ({ s with position := ⟨(crashedPos s dt).x, 0.2, (crashedPos s dt).z⟩,
              velocity := ⟨0, 0, 0⟩ }, false)
  else
    ({ s with position := crashedPos s dt, velocity := crashedVel s dt }, false)

/-- Combined collision flag of a flying step, src/components/Drone.tsx
lines 183 to 257: hard landing, then propeller ground strike, then the
obstacle scan; the source runs the later checks only when the flag is still
false, which equals this disjunction. -/
def collisionFlag (P : Prim) (obstacles : List Obstacle) (s : DroneState)
    (keys : Keys) (dt : ℚ) : Bool :=
  hardLanding P s keys dt || propGroundHit P s keys dt ||
    obstacleHit P obstacles s keys dt

/-- Position committed on a crash transition, src/components/Drone.tsx
lines 263 to 271: the pre step position pushed back along the normalized pre
crash velocity by 1.5, or nudged up by 0.5 when the squared speed is at most
0.1. The source computes normalize as division by Math.sqrt of the squared
length; the square root primitive of the embedding stands for it. -/
def crashPos (P : Prim) (s : DroneState) (keys : Keys) (dt : ℚ) : Vec3 :=
  if decide (0.1 < lengthSq (flyVel2 P s keys dt)) then
    s.position - ((1.5 / P.sqrt (lengthSq (flyVel2 P s keys dt))) • flyVel2 P s keys dt)
  else ⟨s.position.x, s.position.y + 0.5, s.position.z⟩

/-- Whether onObjectiveReached fires for a committed position,
src/components/Drone.tsx lines 291 to 299. The source compares the Euclidean
distance against 4; squared distance against 16 is its exact equivalent. -/
def objectiveSignal (objectivePosition : Option Vec3) (p : Vec3) : Bool :=
  match objectivePosition with
  | none => false
  | some obj => decide (distanceSq p obj < 16)

/-- One simulation step at an already clamped elapsed time dt, the useFrame
body of src/components/Drone.tsx lines 104 to 299 minus rendering and the
rate limited stats callback. The Bool output is whether onObjectiveReached
was invoked this step (lines 291 to 299, reached only on the commit path).
The crash transition guard of line 260 tests the collision flag together
with the crash latch not being set within this step by the hard landing
branch of line 201; on the transition the pushback position is committed and
the velocity zeroed, otherwise the candidate is committed unconditionally. -/
def stepDt (P : Prim) (obstacles : List Obstacle) (objectivePosition : Option Vec3)
    (s : DroneState) (keys : Keys) (dt : ℚ) : DroneState × Bool :=
  if s.isCrashed then
    crashedStep s dt
  else if collisionFlag P obstacles s keys dt && !hardLanding P s keys dt then
    (⟨crashPos P s keys dt, ⟨0, 0, 0⟩, flyRot2 P s keys dt,
      throttleUpd keys s.position.y s.throttle dt, true⟩, false)
  else
    (⟨flyCand P s keys dt, flyVel2 P s keys dt, flyRot2 P s keys dt,
      throttleUpd keys s.position.y s.throttle dt, hardLanding P s keys dt⟩,
     objectiveSignal objectivePosition (flyCand P s keys dt))

/-- Elapsed time clamp, src/components/Drone.tsx line 101. -/
def clampDt (delta : ℚ) : ℚ := min delta 0.1

/-- One simulation step at a raw supplied elapsed time: the clamp of line 101
followed by the step body. -/
def step (P : Prim) (obstacles : List Obstacle) (objectivePosition : Option Vec3)
    (s : DroneState) (keys : Keys) (delta : ℚ) : DroneState × Bool :=
  stepDt P obstacles objectivePosition s keys (clampDt delta)

/-- Iterated stepping over a list of per step inputs. -/
def run (P : Prim) (obstacles : List Obstacle) (objectivePosition : Option Vec3)
    (s : DroneState) : List (Keys × ℚ) → DroneState
  | [] => s
  | i :: rest => run P obstacles objectivePosition
      (step P obstacles objectivePosition s i.1 i.2).1 rest

/-- Vector of Option valued components for the NaN guard model: none stands
for NaN. -/
structure NVec3 where
  x : Option ℚ
  y : Option ℚ
  z : Option ℚ
deriving DecidableEq

/-- The NaN guard of src/components/Drone.tsx lines 104 to 106: only the x
component of each vector is tested; a NaN position x resets the position to
(0, 5, 0) and a NaN velocity x resets the velocity to zero. -/
def nanGuard (pos vel : NVec3) : NVec3 × NVec3 :=
  (if pos.x = none then (⟨some 0, some 5, some 0⟩ : NVec3) else pos,
   if vel.x = none then (⟨some 0, some 0, some 0⟩ : NVec3) else vel)

/-- Primitive instantiation for concrete runs at attitude zero: sine 0 is 0
and cosine 0 is 1, matching the true primitives at the only argument those
runs use; the square root component is never consulted on the evaluated
paths. -/
def P0 : Prim := ⟨fun _ => 0, fun _ => 1, fun _ => 0⟩

/-- All keys released. -/
def k0 : Keys :=
  ⟨false, false, false, false, false, false, false, false, false, false, false, false, false⟩

/-- Keys with only ArrowUp pressed. -/
def kUp : Keys :=
  ⟨false, false, false, false, true, false, false, false, false, false, false, false, false⟩

/-- Concrete crashed state for the latch witness. -/
def sC1 : DroneState := ⟨⟨3, 7, -2⟩, ⟨1, -4, 2⟩, ⟨0, 0, 0⟩, 0.3, true⟩

/-- Concrete flying state for the throttle bound witness. -/
def sC2 : DroneState := ⟨⟨0, 6, 0⟩, ⟨0, 0, 0⟩, ⟨0, 0, 0⟩, 0.5, false⟩

/-- Concrete flying state for the hard landing evaluation: altitude 0.4,
downward vertical speed 20, idle throttle. -/
def sC3 : DroneState := ⟨⟨0, 0.4, 0⟩, ⟨0, -20, 0⟩, ⟨0, 0, 0⟩, 0, false⟩

/-- Concrete flying state next to the objective used for the objective signal
claim. -/
def sC4 : DroneState := ⟨⟨0, 10, 0⟩, ⟨0, 0, 0⟩, ⟨0, 0, 0⟩, 0, false⟩

/-- Objective position for the objective signal claim. -/
def oC4 : Vec3 := ⟨0, 10, 0⟩

/-- Concrete flying state just below an inflated building box, drifting up
slowly: throttle 0.4 gives a residual upward acceleration of 1. -/
def sC5 : DroneState := ⟨⟨0, 4.495, 0⟩, ⟨0, 0, 0⟩, ⟨0, 0, 0⟩, 0.4, false⟩

/-- Building of the pushback claim: center (0, 10, 0), size 10 by 10 by 10. -/
def bC5 : Obstacle := ⟨ObsKind.building, ⟨0, 10, 0⟩, ⟨10, 10, 10⟩⟩

/-- Concrete flying state above a tree trunk for the tree collision witness. -/
def sC6 : DroneState := ⟨⟨0, 2, 0⟩, ⟨0, 0, 0⟩, ⟨0, 0, 0⟩, 0, false⟩

/-- Tree of the tree collision witness: at the origin, collider size
1.5 by 4 by 1.5. -/
def tC6 : Obstacle := ⟨ObsKind.tree, ⟨0, 0, 0⟩, ⟨1.5, 4, 1.5⟩⟩

/-- Concrete flying state with nonzero horizontal velocity for the zero
elapsed time claim. -/
def sC9 : DroneState := ⟨⟨0, 10, 0⟩, ⟨1, 0, 0⟩, ⟨0, 0, 0⟩, 0, false⟩

/-- Concrete flying state just below the top of a tree collider, drifting up
slowly, for the crash freeze witness. -/
def sC10 : DroneState := ⟨⟨5, 3.9, 5⟩, ⟨0, 0, 0⟩, ⟨0, 0, 0⟩, 0.4, false⟩

/-- Tree of the crash freeze witness. -/
def tC10 : Obstacle := ⟨ObsKind.tree, ⟨5, 0, 5⟩, ⟨1.5, 4, 1.5⟩⟩

@[simp]
theorem Vec3.add_x (a b : Vec3) : (a + b).x = a.x + b.x := rfl

@[simp]
theorem Vec3.add_y (a b : Vec3) : (a + b).y = a.y + b.y := rfl

@[simp]
theorem Vec3.add_z (a b : Vec3) : (a + b).z = a.z + b.z := rfl

@[simp]
theorem Vec3.sub_x (a b : Vec3) : (a - b).x = a.x - b.x := rfl

@[simp]
theorem Vec3.sub_y (a b : Vec3) : (a - b).y = a.y - b.y := rfl

@[simp]
theorem Vec3.sub_z (a b : Vec3) : (a - b).z = a.z - b.z := rfl

@[simp]
theorem Vec3.smul_x (c : ℚ) (v : Vec3) : (c • v).x = c * v.x := rfl

@[simp]
theorem Vec3.smul_y (c : ℚ) (v : Vec3) : (c • v).y = c * v.y := rfl

@[simp]
theorem Vec3.smul_z (c : ℚ) (v : Vec3) : (c • v).z = c * v.z := rfl

theorem Vec3.add_mk (a b c d e f : ℚ) :
    (⟨a, b, c⟩ : Vec3) + ⟨d, e, f⟩ = ⟨a + d, b + e, c + f⟩ := rfl

theorem Vec3.sub_mk (a b c d e f : ℚ) :
    (⟨a, b, c⟩ : Vec3) - ⟨d, e, f⟩ = ⟨a - d, b - e, c - f⟩ := rfl

theorem Vec3.smul_mk (q a b c : ℚ) :
    q • (⟨a, b, c⟩ : Vec3) = ⟨q * a, q * b, q * c⟩ := rfl

theorem smul_zero_vec (v : Vec3) : (0 : ℚ) • v = (⟨0, 0, 0⟩ : Vec3) := by
  ext <;> simp

theorem add_zero_vec (v : Vec3) : v + (⟨0, 0, 0⟩ : Vec3) = v := by
  ext <;> simp

theorem lerp_tzero (x y : ℚ) : lerp x y 0 = x := by
  unfold lerp; ring

theorem clampDt_zero : clampDt 0 = 0 := by
  unfold clampDt
  exact min_eq_left (by norm_num)

theorem yawUpd_zero (keys : Keys) (y : ℚ) : yawUpd keys y 0 = y := by
  unfold yawUpd
  split <;> split <;> ring

theorem rotUpd_zero (keys : Keys) (r : Vec3) : rotUpd keys r 0 = r := by
  unfold rotUpd
  ext <;> simp [zero_mul, lerp_tzero, yawUpd_zero]

theorem flyQuat_zero (P : Prim) (s : DroneState) (keys : Keys) :
    flyQuat P s keys 0 = quatFromEulerYXZ P s.rotation := by
  unfold flyQuat; rw [rotUpd_zero]

theorem flyVel_zero (P : Prim) (s : DroneState) (keys : Keys) :
    flyVel P s keys 0 = DRAG • s.velocity := by
  unfold flyVel
  rw [smul_zero_vec, add_zero_vec]

theorem flyNext_zero (P : Prim) (s : DroneState) (keys : Keys) :
    flyNext P s keys 0 = s.position := by
  unfold flyNext
  rw [smul_zero_vec, add_zero_vec]

theorem flyCand_not_low (P : Prim) (s : DroneState) (keys : Keys) (dt : ℚ) :
    ¬ ((flyCand P s keys dt).y < 0.5) := by
  unfold flyCand
  split
  · norm_num
  · next h => exact h

theorem hardLanding_false (P : Prim) (s : DroneState) (keys : Keys) (dt : ℚ) :
    hardLanding P s keys dt = false := by
  unfold hardLanding flyVel2
  by_cases h : (flyNext P s keys dt).y < 0.5
  · simp [h]
  · simp [h]

theorem crashedVel_zero (s : DroneState) : crashedVel s 0 = s.velocity := by
  unfold crashedVel
  ext <;> simp

theorem crashedPos_zero (s : DroneState) : crashedPos s 0 = s.position := by
  unfold crashedPos
  rw [smul_zero_vec, add_zero_vec]

theorem crashedStep_isCrashed (s : DroneState) (dt : ℚ) :
    (crashedStep s dt).1.isCrashed = s.isCrashed := by
  unfold crashedStep
  split <;> rfl

theorem step_of_crashed (P : Prim) (obst : List Obstacle) (obj : Option Vec3)
    (s : DroneState) (keys : Keys) (delta : ℚ) (h : s.isCrashed = true) :
    step P obst obj s keys delta = crashedStep s (clampDt delta) := by
  unfold step stepDt
  rw [h]
  rfl

theorem step_keeps_crashed (P : Prim) (obst : List Obstacle) (obj : Option Vec3)
    (s : DroneState) (keys : Keys) (delta : ℚ) (h : s.isCrashed = true) :
    (step P obst obj s keys delta).1.isCrashed = true := by
  rw [step_of_crashed P obst obj s keys delta h, crashedStep_isCrashed]
  exact h

theorem run_stays_crashed (P : Prim) (obst : List Obstacle) (obj : Option Vec3)
    (ins : List (Keys × ℚ)) :
    ∀ s : DroneState, s.isCrashed = true → (run P obst obj s ins).isCrashed = true := by
  induction ins with
  | nil => intro s h; simpa [run] using h
  | cons i rest ih =>
    intro s h
    simp only [run]
    exact ih _ (step_keeps_crashed P obst obj s i.1 i.2 h)

theorem crashedStep_frozen (s : DroneState) (dt : ℚ)
    (hx : s.velocity.x = 0) (hz : s.velocity.z = 0) :
    (crashedStep s dt).1.position.x = s.position.x ∧
    (crashedStep s dt).1.position.z = s.position.z ∧
    (crashedStep s dt).1.velocity.x = 0 ∧
    (crashedStep s dt).1.velocity.z = 0 := by
  have hpx : (crashedPos s dt).x = s.position.x := by
    unfold crashedPos crashedVel
    simp [hx]
  have hpz : (crashedPos s dt).z = s.position.z := by
    unfold crashedPos crashedVel
    simp [hz]
  unfold crashedStep
  split
  · exact ⟨hpx, hpz, rfl, rfl⟩
  · exact ⟨hpx, hpz, by simpa [crashedVel] using hx, by simpa [crashedVel] using hz⟩

theorem run_crashed_frozen (P : Prim) (obst : List Obstacle) (obj : Option Vec3)
    (ins : List (Keys × ℚ)) :
    ∀ s : DroneState, s.isCrashed = true → s.velocity.x = 0 → s.velocity.z = 0 →
    (run P obst obj s ins).position.x = s.position.x ∧
    (run P obst obj s ins).position.z = s.position.z ∧
    (run P obst obj s ins).velocity.x = 0 ∧
    (run P obst obj s ins).velocity.z = 0 := by
  induction ins with
  | nil => intro s hc hx hz; exact ⟨rfl, rfl, hx, hz⟩
  | cons i rest ih =>
    intro s hc hx hz
    have hs := step_of_crashed P obst obj s i.1 i.2 hc
    have hf := crashedStep_frozen s (clampDt i.2) hx hz
    have hc2 : (step P obst obj s i.1 i.2).1.isCrashed = true :=
      step_keeps_crashed P obst obj s i.1 i.2 hc
    have hrec := ih (step P obst obj s i.1 i.2).1 hc2
      (by rw [hs]; exact hf.2.2.1) (by rw [hs]; exact hf.2.2.2)
    simp only [run]
    refine ⟨?_, ?_, hrec.2.2.1, hrec.2.2.2⟩
    · rw [hrec.1, hs]; exact hf.1
    · rw [hrec.2.1, hs]; exact hf.2.1

theorem throttleRamp_bounds (keys : Keys) (t dt : ℚ)
    (hdt0 : 0 ≤ dt) (h0 : 0 ≤ t) (h1 : t ≤ 1) :
    0 ≤ throttleRamp keys t dt ∧ throttleRamp keys t dt ≤ 1 := by
  unfold throttleRamp THROTTLE_RESPONSE_SPEED
  split
  · constructor
    · apply le_min <;> nlinarith
    · exact min_le_right _ _
  · split
    · constructor
      · exact le_max_right _ _
      · apply max_le <;> nlinarith
    · exact ⟨h0, h1⟩

theorem throttleUpd_bounds (keys : Keys) (py t dt : ℚ)
    (hdt0 : 0 ≤ dt) (hdt1 : dt ≤ 0.1) (h0 : 0 ≤ t) (h1 : t ≤ 1) :
    0 ≤ throttleUpd keys py t dt ∧ throttleUpd keys py t dt ≤ 1 := by
  obtain ⟨hr0, hr1⟩ := throttleRamp_bounds keys t dt hdt0 h0 h1
  unfold throttleUpd
  split
  · unfold lerp HOVER_THROTTLE
    constructor <;> nlinarith [hr0, hr1]
  · exact ⟨hr0, hr1⟩

theorem step_throttle_cases (P : Prim) (obst : List Obstacle) (obj : Option Vec3)
    (s : DroneState) (keys : Keys) (delta : ℚ) :
    (step P obst obj s keys delta).1.throttle = s.throttle ∨
    (step P obst obj s keys delta).1.throttle =
      throttleUpd keys s.position.y s.throttle (clampDt delta) := by
  unfold step stepDt
  split
  · left
    unfold crashedStep
    split <;> rfl
  · split
    · right; rfl
    · right; rfl

theorem throttleRamp_zero_idem (keys : Keys) (t : ℚ) :
    throttleRamp keys (throttleRamp keys t 0) 0 = throttleRamp keys t 0 := by
  unfold throttleRamp THROTTLE_RESPONSE_SPEED
  by_cases hu : (keys.arrowUp || keys.space) = true
  · simp [hu, zero_mul, add_zero, min_assoc, min_self]
  · by_cases hd : (keys.arrowDown || keys.shiftLeft || keys.shiftRight) = true
    · simp [hu, hd, zero_mul, sub_zero, max_assoc, max_self]
    · simp [hu, hd]

theorem throttleUpd_zero (keys : Keys) (py t : ℚ) :
    throttleUpd keys py t 0 = throttleRamp keys t 0 := by
  unfold throttleUpd
  split
  · simp [zero_mul, lerp_tzero]
  · rfl

theorem flyRot2_zero (P : Prim) (s : DroneState) (keys : Keys) :
    flyRot2 P s keys 0 = s.rotation := by
  unfold flyRot2
  split
  · rw [rotUpd_zero]
    ext <;> simp [zero_mul, lerp_tzero]
  · exact rotUpd_zero _ _

/-- Claim C1: once the flight status is Crashed it stays Crashed: a single
step from a crashed state is crashed again, and no sequence of inputs,
elapsed times or obstacle configurations ever returns the status to
Flying. -/
theorem crashed_latch (P : Prim) (obst : List Obstacle) (obj : Option Vec3)
    (s : DroneState) (keys : Keys) (delta : ℚ) (h : s.isCrashed = true) :
    (step P obst obj s keys delta).1.isCrashed = true ∧
    ∀ ins : List (Keys × ℚ), (run P obst obj s ins).isCrashed = true :=
  ⟨step_keeps_crashed P obst obj s keys delta h,
   fun ins => run_stays_crashed P obst obj ins s h⟩

/-- Witness for crashed_latch at a concrete crashed state. -/
theorem crashed_latch_witness :
    (step P0 [] none sC1 k0 0.1).1.isCrashed = true ∧
    (run P0 [] none sC1 [(k0, 0.1), (kUp, 0.2)]).isCrashed = true := by
  have h := crashed_latch P0 [] none sC1 k0 0.1 rfl
  exact ⟨h.1, h.2 [(k0, 0.1), (kUp, 0.2)]⟩

/-- Claim C2: a step from a state with throttle in the unit interval, under
any key combination and any nonnegative elapsed time, leaves the throttle in
the unit interval: the increase ramp, the decrease ramp and the takeoff
assist smoothing all preserve the bound. -/
theorem throttle_bounds (P : Prim) (obst : List Obstacle) (obj : Option Vec3)
    (s : DroneState) (keys : Keys) (delta : ℚ)
    (hd : 0 ≤ delta) (h0 : 0 ≤ s.throttle) (h1 : s.throttle ≤ 1) :
    0 ≤ (step P obst obj s keys delta).1.throttle ∧
    (step P obst obj s keys delta).1.throttle ≤ 1 := by
  have hdt0 : 0 ≤ clampDt delta := le_min hd (by norm_num)
  have hdt1 : clampDt delta ≤ 0.1 := min_le_right _ _
  have hb := throttleUpd_bounds keys s.position.y s.throttle (clampDt delta) hdt0 hdt1 h0 h1
  rcases step_throttle_cases P obst obj s keys delta with h | h <;> rw [h]
  · exact ⟨h0, h1⟩
  · exact hb

/-- Witness for throttle_bounds at a concrete flying state with the throttle
up key held. -/
theorem throttle_bounds_witness :
    0 ≤ (step P0 [] none sC2 kUp 0.1).1.throttle ∧
    (step P0 [] none sC2 kUp 0.1).1.throttle ≤ 1 :=
  throttle_bounds P0 [] none sC2 kUp 0.1 (by norm_num) (by norm_num [sC2])
    (by norm_num [sC2])

/-- Claim C7, counterexample: a position whose only NaN component is y
passes the guard of lines 104 to 106 unchanged, NaN included, because only
the x component is tested. -/
theorem nan_guard_y_unrepaired :
    (nanGuard ⟨some 0, none, some 0⟩ ⟨some 0, some 0, some 0⟩).1 =
      (⟨some 0, none, some 0⟩ : NVec3) := by decide

/-- Claim C7 as amended: the guard tests only the x components; when both x
components are finite the state passes through untouched, NaN in other
components included, and when an x component is NaN the whole vector is
reset to its safe default, position to (0, 5, 0) and velocity to zero. -/
theorem nan_guard_x_only (pos vel : NVec3)
    (hp : pos.x ≠ none) (hv : vel.x ≠ none) :
    nanGuard pos vel = (pos, vel) ∧
    nanGuard ⟨none, pos.y, pos.z⟩ ⟨none, vel.y, vel.z⟩ =
      (⟨some 0, some 5, some 0⟩, ⟨some 0, some 0, some 0⟩) := by
  constructor
  · unfold nanGuard
    rw [if_neg hp, if_neg hv]
  · unfold nanGuard
    rw [if_pos rfl, if_pos rfl]

/-- Witness for nan_guard_x_only: a NaN confined to position y and velocity
z survives the guard, while NaN x components trigger the resets. -/
theorem nan_guard_x_only_witness :
    nanGuard ⟨some 0, none, some 0⟩ ⟨some 1, some 0, none⟩ =
      (⟨some 0, none, some 0⟩, ⟨some 1, some 0, none⟩) ∧
    nanGuard ⟨none, none, some 0⟩ ⟨none, some 0, none⟩ =
      (⟨some 0, some 5, some 0⟩, ⟨some 0, some 0, some 0⟩) := by
  have h := nan_guard_x_only ⟨some 0, none, some 0⟩ ⟨some 1, some 0, none⟩
    (by decide) (by decide)
  exact ⟨h.1, h.2⟩

/-- Claim C8: the step consumes the supplied elapsed time only through the
clamp min(delta, 0.1) of line 101, which never exceeds 0.1. -/
theorem dt_clamped (P : Prim) (obst : List Obstacle) (obj : Option Vec3)
    (s : DroneState) (keys : Keys) (delta : ℚ) :
    step P obst obj s keys delta = stepDt P obst obj s keys (clampDt delta) ∧
    clampDt delta ≤ 0.1 :=
  ⟨rfl, min_le_right _ _⟩

theorem step_crashes_of_hit (P : Prim) (obst : List Obstacle) (obj : Option Vec3)
    (s : DroneState) (keys : Keys) (delta : ℚ) (obs : Obstacle) (cp : Vec3 × ℚ)
    (h1 : s.isCrashed = false) (hobs : obs ∈ obst)
    (hcp : cp ∈ checkPoints P s keys (clampDt delta))
    (hhit : pointHit cp.1 cp.2 obs = true) :
    (step P obst obj s keys delta).1.isCrashed = true ∧
    (step P obst obj s keys delta).1.velocity = ⟨0, 0, 0⟩ ∧
    (step P obst obj s keys delta).1.position = crashPos P s keys (clampDt delta) := by
  have hscan : obstacleHit P obst s keys (clampDt delta) = true := by
    unfold obstacleHit
    rw [List.any_eq_true]
    refine ⟨obs, hobs, ?_⟩
    rw [List.any_eq_true]
    exact ⟨cp, hcp, hhit⟩
  have hcol : collisionFlag P obst s keys (clampDt delta) = true := by
    unfold collisionFlag
    rw [hscan]
    simp
  unfold step stepDt
  simp only [h1, Bool.false_eq_true, if_false, hcol, hardLanding_false,
    Bool.not_false, Bool.and_true, if_true]
  exact ⟨trivial, trivial, trivial⟩

theorem step_crash_velocity_zero (P : Prim) (obst : List Obstacle) (obj : Option Vec3)
    (s : DroneState) (keys : Keys) (delta : ℚ)
    (h1 : s.isCrashed = false)
    (h2 : (step P obst obj s keys delta).1.isCrashed = true) :
    (step P obst obj s keys delta).1.velocity = ⟨0, 0, 0⟩ := by
  unfold step stepDt at h2 ⊢
  simp only [h1, Bool.false_eq_true, if_false] at h2 ⊢
  by_cases hc : (collisionFlag P obst s keys (clampDt delta) &&
      !hardLanding P s keys (clampDt delta)) = true
  · simp only [hc, if_true]
  · rw [Bool.not_eq_true] at hc
    simp only [hc, Bool.false_eq_true, if_false] at h2
    rw [hardLanding_false] at h2 ⊢
    exact absurd h2 (by simp)

/-- Claim C4, amended: the objective signal fires on every step that commits
a Flying state while an objective is set and the committed squared distance
to it is below 16, the square of the capture radius 4; the source has no
edge trigger, so the signal repeats on every qualifying step, and the once
per session effect lives in the external handler. -/
theorem objective_signal_iff (P : Prim) (obst : List Obstacle) (o : Vec3)
    (s : DroneState) (keys : Keys) (delta : ℚ)
    (h1 : s.isCrashed = false)
    (h2 : (step P obst (some o) s keys delta).1.isCrashed = false) :
    ((step P obst (some o) s keys delta).2 = true ↔
      distanceSq (step P obst (some o) s keys delta).1.position o < 16) := by
  unfold step stepDt at h2 ⊢
  simp only [h1, Bool.false_eq_true, if_false] at h2 ⊢
  by_cases hc : (collisionFlag P obst s keys (clampDt delta) &&
      !hardLanding P s keys (clampDt delta)) = true
  · simp only [hc, if_true] at h2
    exact absurd h2 (by simp)
  · rw [Bool.not_eq_true] at hc
    simp only [hc, Bool.false_eq_true, if_false]
    unfold objectiveSignal
    simp only [decide_eq_true_eq]

/-- Claim C5, amended: a Flying step with a collision point strictly inside
a building box inflated by that point radius crashes within the step and
zeroes the velocity; the committed position is the pre step position pushed
back along the normalized pre crash velocity by the fixed distance 1.5, or
nudged up by the fixed 0.5 when the pre crash squared speed is at most 0.1.
The pushback is heuristic: the committed position can itself still lie
inside the inflated box, as the counterexample shows. -/
theorem building_crash_pushback (P : Prim) (obst : List Obstacle) (obj : Option Vec3)
    (s : DroneState) (keys : Keys) (delta : ℚ) (obs : Obstacle) (cp : Vec3 × ℚ)
    (h1 : s.isCrashed = false) (hobs : obs ∈ obst)
    (hcp : cp ∈ checkPoints P s keys (clampDt delta))
    (hkind : obs.kind = ObsKind.building)
    (hhit : pointHit cp.1 cp.2 obs = true) :
    (step P obst obj s keys delta).1.isCrashed = true ∧
    (step P obst obj s keys delta).1.velocity = ⟨0, 0, 0⟩ ∧
    (step P obst obj s keys delta).1.position = crashPos P s keys (clampDt delta) :=
  step_crashes_of_hit P obst obj s keys delta obs cp h1 hobs hcp hhit

/-- Claim C6: for a tree obstacle and a collision point of a Flying step,
a squared horizontal distance below the square of the inflated trunk radius
1.5 plus the point radius together with altitude below the tree height
drives the step to Crashed, while a point at or above the tree height never
registers a hit on that tree whatever its horizontal distance. -/
theorem tree_hit_rule (P : Prim) (obst : List Obstacle) (obj : Option Vec3)
    (s : DroneState) (keys : Keys) (delta : ℚ) (obs : Obstacle) (p : Vec3) (r : ℚ)
    (h1 : s.isCrashed = false) (ht : obs.kind = ObsKind.tree) :
    ((obs ∈ obst ∧ (p, r) ∈ checkPoints P s keys (clampDt delta) ∧
        (p.x - obs.position.x) * (p.x - obs.position.x) +
          (p.z - obs.position.z) * (p.z - obs.position.z) < (1.5 + r) * (1.5 + r) ∧
        p.y < obs.size.y) →
      (step P obst obj s keys delta).1.isCrashed = true) ∧
    (obs.size.y ≤ p.y → pointHit p r obs = false) := by
  constructor
  · rintro ⟨hobs, hcp, hd, hy⟩
    have hhit : pointHit p r obs = true := by
      unfold pointHit
      rw [ht]
      rw [Bool.and_eq_true]
      exact ⟨decide_eq_true hd, decide_eq_true hy⟩
    exact (step_crashes_of_hit P obst obj s keys delta obs (p, r) h1 hobs hcp hhit).1
  · intro hy
    unfold pointHit
    rw [ht]
    simp [not_lt.mpr hy]

/-- Claim C10: a step that newly latches the crash commits zero velocity,
and from then on no sequence of inputs and elapsed times ever changes the
horizontal position or horizontal velocity again: crashed state steps touch
only the vertical components. -/
theorem crash_freezes_horizontal (P : Prim) (obst : List Obstacle) (obj : Option Vec3)
    (s : DroneState) (keys : Keys) (delta : ℚ)
    (h1 : s.isCrashed = false)
    (h2 : (step P obst obj s keys delta).1.isCrashed = true) :
    (step P obst obj s keys delta).1.velocity = ⟨0, 0, 0⟩ ∧
    ∀ ins : List (Keys × ℚ),
      (run P obst obj (step P obst obj s keys delta).1 ins).position.x =
        (step P obst obj s keys delta).1.position.x ∧
      (run P obst obj (step P obst obj s keys delta).1 ins).position.z =
        (step P obst obj s keys delta).1.position.z ∧
      (run P obst obj (step P obst obj s keys delta).1 ins).velocity.x = 0 ∧
      (run P obst obj (step P obst obj s keys delta).1 ins).velocity.z = 0 := by
  have hvel := step_crash_velocity_zero P obst obj s keys delta h1 h2
  refine ⟨hvel, fun ins => ?_⟩
  exact run_crashed_frozen P obst obj ins (step P obst obj s keys delta).1 h2
    (by rw [hvel]) (by rw [hvel])

theorem stepDt_zero_commit (P : Prim) (obst : List Obstacle) (obj : Option Vec3)
    (s : DroneState) (keys : Keys)
    (h1 : s.isCrashed = false)
    (hcol : collisionFlag P obst s keys 0 = false) :
    stepDt P obst obj s keys 0 =
      (⟨flyCand P s keys 0, flyVel2 P s keys 0, s.rotation,
        throttleRamp keys s.throttle 0, false⟩,
       objectiveSignal obj (flyCand P s keys 0)) := by
  unfold stepDt
  simp only [h1, Bool.false_eq_true, if_false, hcol, Bool.false_and, if_false]
  rw [flyRot2_zero, throttleUpd_zero, hardLanding_false]

theorem flyCand_zero_of_high (P : Prim) (s : DroneState) (keys : Keys)
    (h : ¬ (s.position.y < 0.5)) : flyCand P s keys 0 = s.position := by
  unfold flyCand
  rw [flyNext_zero]
  exact if_neg h

theorem propPoints_zero_eq (P : Prim) (s s2 : DroneState) (keys : Keys)
    (hp : s2.position = flyCand P s keys 0) (hr : s2.rotation = s.rotation) :
    propPoints P s2 keys 0 = propPoints P s keys 0 := by
  have hhigh : ¬ (s2.position.y < 0.5) := by
    rw [hp]; exact flyCand_not_low P s keys 0
  unfold propPoints
  rw [flyQuat_zero, hr, ← flyQuat_zero P s keys,
    flyCand_zero_of_high P s2 keys hhigh, hp]

theorem checkPoints_zero_eq (P : Prim) (s s2 : DroneState) (keys : Keys)
    (hp : s2.position = flyCand P s keys 0) (hr : s2.rotation = s.rotation) :
    checkPoints P s2 keys 0 = checkPoints P s keys 0 := by
  have hhigh : ¬ (s2.position.y < 0.5) := by
    rw [hp]; exact flyCand_not_low P s keys 0
  unfold checkPoints
  rw [propPoints_zero_eq P s s2 keys hp hr,
    flyCand_zero_of_high P s2 keys hhigh, hp]

theorem collisionFlag_zero_eq (P : Prim) (obst : List Obstacle) (s s2 : DroneState)
    (keys : Keys)
    (hp : s2.position = flyCand P s keys 0) (hr : s2.rotation = s.rotation) :
    collisionFlag P obst s2 keys 0 = collisionFlag P obst s keys 0 := by
  unfold collisionFlag propGroundHit obstacleHit
  rw [hardLanding_false, hardLanding_false,
    propPoints_zero_eq P s s2 keys hp hr, checkPoints_zero_eq P s s2 keys hp hr]

theorem crashedStep_zero_high (s : DroneState) (h : ¬ (s.position.y < 0.2)) :
    (crashedStep s 0).1 = s := by
  unfold crashedStep
  rw [crashedPos_zero, crashedVel_zero, if_neg h]

theorem crashedStep_zero_low (s : DroneState) (h : s.position.y < 0.2) :
    (crashedStep s 0).1 =
      { s with position := ⟨s.position.x, 0.2, s.position.z⟩,
               velocity := ⟨0, 0, 0⟩ } := by
  unfold crashedStep
  rw [crashedPos_zero, if_pos h]

theorem crashedStep_zero_fix (s : DroneState) :
    (crashedStep (crashedStep s 0).1 0).1 = (crashedStep s 0).1 := by
  by_cases hy : s.position.y < 0.2
  · rw [crashedStep_zero_low s hy]
    apply crashedStep_zero_high
    norm_num
  · rw [crashedStep_zero_high s hy]
    exact crashedStep_zero_high s hy

/-- Claim C9, amended: two successive steps at elapsed time zero commit the
same position, attitude, throttle and status, provided the first step does
not itself latch a new crash; velocity is not preserved, because the drag
multiply of line 178 applies on every step independent of elapsed time, as
the counterexample shows. -/
theorem zero_dt_core_idempotent (P : Prim) (obst : List Obstacle) (obj : Option Vec3)
    (s : DroneState) (keys : Keys)
    (h : (step P obst obj s keys 0).1.isCrashed = s.isCrashed) :
    (step P obst obj (step P obst obj s keys 0).1 keys 0).1.position =
      (step P obst obj s keys 0).1.position ∧
    (step P obst obj (step P obst obj s keys 0).1 keys 0).1.rotation =
      (step P obst obj s keys 0).1.rotation ∧
    (step P obst obj (step P obst obj s keys 0).1 keys 0).1.throttle =
      (step P obst obj s keys 0).1.throttle ∧
    (step P obst obj (step P obst obj s keys 0).1 keys 0).1.isCrashed =
      (step P obst obj s keys 0).1.isCrashed := by
  have hstep : ∀ s2 : DroneState, step P obst obj s2 keys 0 = stepDt P obst obj s2 keys 0 := by
    intro s2
    unfold step
    rw [clampDt_zero]
  by_cases hc : s.isCrashed = true
  · have e1 : (step P obst obj s keys 0).1 = (crashedStep s 0).1 := by
      rw [hstep]
      unfold stepDt
      rw [hc]
      simp
    have hc1 : (step P obst obj s keys 0).1.isCrashed = true := by
      rw [e1, crashedStep_isCrashed]; exact hc
    have e2 : (step P obst obj (step P obst obj s keys 0).1 keys 0).1 =
        (crashedStep (step P obst obj s keys 0).1 0).1 := by
      rw [hstep]
      unfold stepDt
      rw [hc1]
      simp
    rw [e2, e1, crashedStep_zero_fix]
    exact ⟨rfl, rfl, rfl, rfl⟩
  · rw [Bool.not_eq_true] at hc
    have hcol : collisionFlag P obst s keys 0 = false := by
      by_contra hne
      rw [Bool.not_eq_false] at hne
      have hcr : (step P obst obj s keys 0).1.isCrashed = true := by
        rw [hstep]
        unfold stepDt
        simp only [hc, Bool.false_eq_true, if_false, hne, hardLanding_false,
          Bool.not_false, Bool.and_true, if_true]
      rw [h, hc] at hcr
      exact absurd hcr (by simp)
    have e1 : step P obst obj s keys 0 =
        (⟨flyCand P s keys 0, flyVel2 P s keys 0, s.rotation,
          throttleRamp keys s.throttle 0, false⟩,
         objectiveSignal obj (flyCand P s keys 0)) := by
      rw [hstep]
      exact stepDt_zero_commit P obst obj s keys hc hcol
    have hcr1 : (step P obst obj s keys 0).1.isCrashed = false := by rw [e1]
    have hpos1 : (step P obst obj s keys 0).1.position = flyCand P s keys 0 := by rw [e1]
    have hrot1 : (step P obst obj s keys 0).1.rotation = s.rotation := by rw [e1]
    have hcol2 : collisionFlag P obst (step P obst obj s keys 0).1 keys 0 = false := by
      rw [collisionFlag_zero_eq P obst s (step P obst obj s keys 0).1 keys hpos1 hrot1]
      exact hcol
    have e2 : step P obst obj (step P obst obj s keys 0).1 keys 0 =
        (⟨flyCand P (step P obst obj s keys 0).1 keys 0,
          flyVel2 P (step P obst obj s keys 0).1 keys 0,
          (step P obst obj s keys 0).1.rotation,
          throttleRamp keys (step P obst obj s keys 0).1.throttle 0, false⟩,
         objectiveSignal obj (flyCand P (step P obst obj s keys 0).1 keys 0)) := by
      rw [hstep]
      exact stepDt_zero_commit P obst obj (step P obst obj s keys 0).1 keys hcr1 hcol2
    have hhigh : ¬ ((step P obst obj s keys 0).1.position.y < 0.5) := by
      rw [hpos1]; exact flyCand_not_low P s keys 0
    refine ⟨?_, ?_, ?_, ?_⟩
    · rw [e2]
      exact flyCand_zero_of_high P (step P obst obj s keys 0).1 keys hhigh
    · rw [e2]
    · rw [e2]
      show throttleRamp keys (step P obst obj s keys 0).1.throttle 0 =
        (step P obst obj s keys 0).1.throttle
      rw [e1]
      exact throttleRamp_zero_idem keys s.throttle
    · rw [e2, hcr1]

section ConcreteEvaluation

attribute [local simp] step stepDt clampDt crashedStep crashedVel crashedPos
  collisionFlag hardLanding propGroundHit obstacleHit flyNext flyVel flyCand
  flyVel2 flyRot2 flyQuat rotUpd yawUpd lerp targetPitch targetRoll throttleUpd
  throttleRamp movingInput quatFromEulerYXZ applyQuat propPoints checkPoints
  pointHit PROP_OFFSETS crashPos objectiveSignal distanceSq lengthSq GRAVITY
  THRUST_POWER DRAG ROTATION_SPEED TILT_SPEED MAX_TILT HOVER_THROTTLE
  DRONE_RADIUS PROP_COLLISION_RADIUS THROTTLE_RESPONSE_SPEED P0 k0 kUp run
  sC1 sC2 sC3 sC4 oC4 sC5 bC5 sC6 tC6 sC9 sC10 tC10
  Vec3.add_mk Vec3.sub_mk Vec3.smul_mk abs_eq_max_neg min_def max_def

/-- Claim C3, evaluated at the failing input: from altitude 0.4 with
downward vertical speed 20 and idle throttle, the step reaches ground
contact, the vertical speed carried into the contact exceeding the hard
landing threshold of 10 in magnitude, yet the post step status is Flying
and the vertical velocity simply zeroed, because the source zeroes the
vertical velocity at line 189 before testing it at line 200. The claim and
the comment of the source at line 199 both call for a crash here. -/
theorem hard_landing_dead_eval :
    10 < |(flyVel P0 sC3 k0 (clampDt 0.1)).y| ∧
    (flyNext P0 sC3 k0 (clampDt 0.1)).y < 0.5 ∧
    (step P0 [] none sC3 k0 0.1).1.isCrashed = false ∧
    (step P0 [] none sC3 k0 0.1).1.velocity.y = 0 := by
  refine ⟨?_, ?_, ?_, ?_⟩ <;> norm_num

/-- Claim C4, counterexample: with the objective at the drone position, two
successive steps both invoke the objective reached signal; the signal is not
edge triggered and repeats while the distance stays below the capture
radius. -/
theorem objective_signal_repeats :
    (step P0 [] (some oC4) sC4 k0 0.1).2 = true ∧
    (step P0 [] (some oC4) (step P0 [] (some oC4) sC4 k0 0.1).1 k0 0.1).2 = true := by
  constructor <;> norm_num

/-- Witness for objective_signal_iff at a concrete committed Flying step
within the capture radius. -/
theorem objective_signal_iff_witness :
    (step P0 [] (some oC4) sC4 k0 0.1).2 = true :=
  (objective_signal_iff P0 [] oC4 sC4 k0 0.1 rfl (by norm_num)).mpr (by norm_num)

/-- Claim C5, counterexample: a slow upward drift into the box of bC5
crashes with the static fallback nudge of 0.5, and the committed post step
position still lies strictly inside the box inflated by the center point
radius, against the claim that the committed position is not inside. -/
theorem building_crash_pos_inside :
    (step P0 [bC5] none sC5 k0 0.1).1.isCrashed = true ∧
    pointHit (step P0 [bC5] none sC5 k0 0.1).1.position DRONE_RADIUS bC5 = true := by
  constructor <;> norm_num

/-- Witness for building_crash_pushback at the concrete slow drift into the
box of bC5: the center point at its computed candidate position is strictly
inside the inflated box. -/
theorem building_crash_pushback_witness :
    (step P0 [bC5] none sC5 k0 0.1).1.isCrashed = true ∧
    (step P0 [bC5] none sC5 k0 0.1).1.velocity = ⟨0, 0, 0⟩ ∧
    (step P0 [bC5] none sC5 k0 0.1).1.position = crashPos P0 sC5 k0 (clampDt 0.1) :=
  building_crash_pushback P0 [bC5] none sC5 k0 0.1 bC5
    (⟨0, 5631/1250, 0⟩, DRONE_RADIUS) rfl (by norm_num) (by norm_num) rfl (by norm_num)

/-- Witness for tree_hit_rule: the drone center descending above the trunk
of tC6 is horizontally at the tree axis and below the tree height, and the
step crashes. -/
theorem tree_hit_rule_witness :
    (step P0 [tC6] none sC6 k0 0.1).1.isCrashed = true :=
  (tree_hit_rule P0 [tC6] none sC6 k0 0.1 tC6 ⟨0, 351/200, 0⟩ DRONE_RADIUS rfl rfl).1
    ⟨by norm_num, by norm_num, by norm_num, by norm_num⟩

/-- Claim C9, counterexample: from a Flying state with horizontal velocity
1, a second zero elapsed time step produces a different state than the
first, because the drag multiply applies each step regardless of elapsed
time. -/
theorem zero_dt_not_idempotent :
    (step P0 [] none (step P0 [] none sC9 k0 0).1 k0 0).1 ≠
      (step P0 [] none sC9 k0 0).1 := by
  norm_num

/-- Witness for zero_dt_core_idempotent at the concrete Flying state with
horizontal velocity 1. -/
theorem zero_dt_core_idempotent_witness :
    (step P0 [] none (step P0 [] none sC9 k0 0).1 k0 0).1.position =
      (step P0 [] none sC9 k0 0).1.position ∧
    (step P0 [] none (step P0 [] none sC9 k0 0).1 k0 0).1.rotation =
      (step P0 [] none sC9 k0 0).1.rotation ∧
    (step P0 [] none (step P0 [] none sC9 k0 0).1 k0 0).1.throttle =
      (step P0 [] none sC9 k0 0).1.throttle ∧
    (step P0 [] none (step P0 [] none sC9 k0 0).1 k0 0).1.isCrashed =
      (step P0 [] none sC9 k0 0).1.isCrashed :=
  zero_dt_core_idempotent P0 [] none sC9 k0 (by norm_num)

/-- Witness for crash_freezes_horizontal: a slow drift into the top of the
tree tC10 latches the crash, zeroes the velocity, and two further crashed
steps leave the horizontal position unchanged. -/
theorem crash_freezes_horizontal_witness :
    (step P0 [tC10] none sC10 k0 0.1).1.velocity = ⟨0, 0, 0⟩ ∧
    (run P0 [tC10] none (step P0 [tC10] none sC10 k0 0.1).1
        [(k0, 0.1), (k0, 0.25)]).position.x =
      (step P0 [tC10] none sC10 k0 0.1).1.position.x := by
  have h := crash_freezes_horizontal P0 [tC10] none sC10 k0 0.1 rfl (by norm_num)
  exact ⟨h.1, (h.2 [(k0, 0.1), (k0, 0.25)]).1⟩

end ConcreteEvaluation

end DroneSim
